import Mathlib

/-!
Verification of the SmartCurateQ orchestration-and-scoring core.

Shallow embedding of the Python sources under `src/` (models.py, config.py,
agents/analysis_agent.py, agents/scoring_engine.py, agents/mapping_agent.py,
agents/public_data_agent.py, agents/orchestrator_agent.py).

Conventions used throughout:
* Python `float` values are modelled as `ℚ`; all constants in the code are
  decimal literals, so rational arithmetic mirrors the comparisons exactly.
* Python `dict.get(k, d)` over heterogeneous metric dictionaries is modelled
  by the `PyDict` record of typed partial maps plus `getD`-style getters.
* Python truthiness in `x or d` expressions is modelled by the `pyOr*`
  helpers (`None`, `0`, `0.0` and `""` are falsy).
* Python substring tests (`needle in hay`) are modelled over `List Char`.
* The AI branches (`use_vertex = True`) call an external LLM and are out of
  scope per the spec; the embedded functions are the deterministic fallback
  paths (`use_vertex = False`), which is the path every claim addresses.
-/

/-- A Python dict holding metric values, modelled as typed partial maps.
`none` means the key is absent.  `listlen k` is the length of a list stored
at `k` when only its length is ever consumed by the embedded code. -/
structure PyDict where
  num : String → Option ℚ := fun _ => none
  str : String → Option String := fun _ => none
  bool : String → Option Bool := fun _ => none
  strlist : String → Option (List String) := fun _ => none
  listlen : String → Option ℕ := fun _ => none

/-- `d.get(k, dflt)` for numeric values. -/
def PyDict.getN (d : PyDict) (k : String) (dflt : ℚ) : ℚ := (d.num k).getD dflt

/-- `d.get(k, dflt)` for string values. -/
def PyDict.getS (d : PyDict) (k : String) (dflt : String) : String := (d.str k).getD dflt

/-- `d.get(k, dflt)` for boolean values. -/
def PyDict.getB (d : PyDict) (k : String) (dflt : Bool) : Bool := (d.bool k).getD dflt

/-- `d.get(k, [])` for lists of strings. -/
def PyDict.getSL (d : PyDict) (k : String) : List String := (d.strlist k).getD []

/-- `len(d.get(k, []))` when only the length of the stored list is used. -/
def PyDict.getLen (d : PyDict) (k : String) : ℕ := (d.listlen k).getD 0

/-- The empty Python dict `{}`. -/
def emptyPyDict : PyDict := {}

/-- Python `x or dflt` for an optional number: `None`, `0` and `0.0` are falsy. -/
def pyOrN (x : Option ℚ) (dflt : ℚ) : ℚ :=
  match x with
  | none => dflt
  | some v => if v = 0 then dflt else v

/-- Python `x or dflt` for a number that is always present. -/
def pyOrN0 (x : ℚ) (dflt : ℚ) : ℚ := if x = 0 then dflt else x

/-- Python `x or dflt` for an optional string: `None` and `""` are falsy. -/
def pyOrS (x : Option String) (dflt : String) : String :=
  match x with
  | none => dflt
  | some s => if s = "" then dflt else s

/-- Python `x or dflt` for a string that is always present. -/
def pyOrS0 (x : String) (dflt : String) : String := if x = "" then dflt else x

/-- Python `x or y` where both operands are optional numbers
(`d.get(k) or d2.get(k)`). -/
def pyOrNN (x y : Option ℚ) : Option ℚ :=
  match x with
  | none => y
  | some v => if v = 0 then y else some v

/-- Python truthiness of an optional number (`not x` is `!pyTruthyN x`). -/
def pyTruthyN (x : Option ℚ) : Bool :=
  match x with
  | none => false
  | some v => decide (v ≠ 0)

/-- Python builtin `min` on two numbers. -/
def pymin (a b : ℚ) : ℚ := if a ≤ b then a else b

/-- Python builtin `max` on two numbers. -/
def pymax (a b : ℚ) : ℚ := if a ≤ b then b else a

/-- Does the character list `needle` start the character list `hay`? -/
def startsWithChars : List Char → List Char → Bool
  | [], _ => true
  | _ :: _, [] => false
  | a :: as, b :: bs => a == b && startsWithChars as bs

/-- Python `needle in hay` for strings, on exploded character lists. -/
def hasSubstr (hay needle : List Char) : Bool :=
  match hay with
  | [] => needle.isEmpty
  | _ :: t => startsWithChars needle hay || hasSubstr t needle

/-- Python `s.lower()`, as the exploded character list of `s`. -/
def pyLower (s : String) : List Char := s.data.map Char.toLower

/-! ## models.py -/

/-- models.py `FounderProfile` (pydantic; optional fields keep their `Optional`
type, with the model defaults recorded as Lean default field values). -/
structure FounderProfile where
  name : String
  background : String
  experience_years : Option ℚ := some 5
  previous_exits : Option ℚ := some 0
  domain_expertise : Option String := some "Business"
  founder_market_fit_score : Option ℚ := some 6

/-- models.py `MarketAnalysis`. -/
structure MarketAnalysis where
  market_size : ℚ
  growth_rate : ℚ
  competition_level : String
  key_players : List String
  market_maturity : String

/-- models.py `BusinessMetrics`: every field nullable. -/
structure BusinessMetrics where
  revenue : Option ℚ := none
  revenue_growth : Option ℚ := none
  employees : Option ℚ := none
  cac : Option ℚ := none
  ltv : Option ℚ := none
  churn_rate : Option ℚ := none
  burn_rate : Option ℚ := none

/-- models.py `StartupProfile`. -/
structure StartupProfile where
  company_name : String
  founders : List FounderProfile
  problem_statement : String
  solution : String
  unique_differentiator : String
  market_analysis : MarketAnalysis
  business_metrics : BusinessMetrics
  funding_stage : String
  funding_amount : Option ℚ := none

/-- models.py `RiskAssessment`. -/
structure RiskAssessment where
  risk_level : String
  risk_factors : List String
  mitigation_strategies : List String

/-- config.py `InvestorPreferences` (dataclass defaults). -/
structure InvestorPreferences where
  founder_weight : ℚ := 1/4
  market_weight : ℚ := 1/4
  differentiation_weight : ℚ := 1/4
  traction_weight : ℚ := 1/4
  risk_tolerance : String := "medium"

/-! ## config.py constants -/

/-- config.py `Config.MIN_MARKET_SIZE = 1000000000` ($1B). -/
def Config.MIN_MARKET_SIZE : ℚ := 1000000000

/-- config.py `Config.MIN_REVENUE_GROWTH = 0.2`. -/
def Config.MIN_REVENUE_GROWTH : ℚ := 1/5

/-- config.py `Config.SCORING_SEGMENTS` (all four platform defaults are 0.25). -/
def Config.SCORING_SEGMENTS (k : String) : ℚ :=
  if k = "founder_profile" then 1/4
  else if k = "problem_market_size" then 1/4
  else if k = "unique_differentiator" then 1/4
  else if k = "team_traction" then 1/4
  else 0

/-! ## agents/analysis_agent.py (deterministic path, `use_vertex = False`) -/

/-- analysis_agent.py `AnalysisAgent._score_market_opportunity`.  The caller
always passes the profile's `MarketAnalysis` object (truthy in Python), so the
`if not market` guard is never taken and is dropped here.  `getattr(..., 0) or 0`
on the total fields `market_size`/`growth_rate` is the identity; the
`competition_level or 'medium'` defaulting is kept. -/
def score_market_opportunity (market : MarketAnalysis) : ℚ :=
  let score : ℚ := 5
  let score := if market.market_size > Config.MIN_MARKET_SIZE then score + 2 else score
  let score := if market.growth_rate > 3/20 then score + 3/2 else score
  let competition_level := pyOrS0 market.competition_level "medium"
  let score :=
    if competition_level = "low" then score + 3/2
    else if competition_level = "high" then score - 1 else score
  pymin 10 (pymax 0 score)

/-- analysis_agent.py `AnalysisAgent._score_differentiation`, fallback branch
(no AI): keyword matching on the lower-cased differentiator text. -/
def score_differentiation (differentiator : String) : ℚ :=
  if hasSubstr (pyLower differentiator) "patent".data
      || hasSubstr (pyLower differentiator) "proprietary".data then 8
  else if hasSubstr (pyLower differentiator) "unique".data
      || hasSubstr (pyLower differentiator) "first".data then 7
  else 5

/-- analysis_agent.py `AnalysisAgent._score_traction`.  The caller always
passes the profile's `BusinessMetrics` object, so the `if not metrics` guard is
never taken.  Each `getattr(metrics, k, 0) or 0` on a nullable field is
`pyOrN _ 0`. -/
def score_traction (metrics : BusinessMetrics) : ℚ :=
  let score : ℚ := 0
  let revenue := pyOrN metrics.revenue 0
  let score :=
    if revenue > 0 then
      let score := score + 3
      let revenue_growth := pyOrN metrics.revenue_growth 0
      if revenue_growth > Config.MIN_REVENUE_GROWTH then score + 2 else score
    else score
  let employees := pyOrN metrics.employees 0
  let score := if employees > 5 then score + 1 else score
  let cac := pyOrN metrics.cac 0
  let ltv := pyOrN metrics.ltv 0
  let score := if cac > 0 ∧ ltv > 0 ∧ ltv > cac * 3 then score + 2 else score
  let score :=
    match metrics.churn_rate with
    | some churn_rate => if churn_rate < 1/20 then score + 2 else score
    | none => score
  pymin 10 score

/-- analysis_agent.py `AnalysisAgent._calculate_investment_score`: weighted
combination of the four sub-scores, each `or`-defaulted, clamped to [0, 10]. -/
def calculate_investment_score (startup : StartupProfile) (preferences : InvestorPreferences) : ℚ :=
  let founder_score :=
    if startup.founders.isEmpty then 5
    else
      let founder_scores := startup.founders.map fun f => pyOrN f.founder_market_fit_score 5
      founder_scores.sum / founder_scores.length
  let market_score := pyOrN0 (score_market_opportunity startup.market_analysis) 5
  let diff_score := pyOrN0 (score_differentiation (pyOrS0 startup.unique_differentiator "")) 5
  let traction_score := pyOrN0 (score_traction startup.business_metrics) 0
  let founder_weight := pyOrN0 preferences.founder_weight (1/4)
  let market_weight := pyOrN0 preferences.market_weight (1/4)
  let diff_weight := pyOrN0 preferences.differentiation_weight (1/4)
  let traction_weight := pyOrN0 preferences.traction_weight (1/4)
  let weighted_score :=
    founder_score * founder_weight +
    market_score * market_weight +
    diff_score * diff_weight +
    traction_score * traction_weight
  pymin 10 (pymax 0 weighted_score)

/-! ## agents/scoring_engine.py -/

/-- scoring_engine.py `ScoringEngine.default_weights = Config.SCORING_SEGMENTS`. -/
def default_weights (k : String) : ℚ := Config.SCORING_SEGMENTS k

/-- Per-segment result of a `ScoringEngine._score_*` method.  The narrative
fields (`key_strengths`, `key_concerns`, `evidence_points`) are string lists
never consumed by scoring logic and are omitted. -/
structure SegmentScore where
  base_score : ℚ
  weighted_score : ℚ

/-- scoring_engine.py `ScoringEngine._score_founder_profile`. -/
def score_founder_profile (founder_metrics : PyDict) (investor_weights : PyDict) : SegmentScore :=
  let founder_market_fit := founder_metrics.getN "founder_market_fit_score" 5
  let experience_score := pymin (founder_metrics.getN "founder_experience_years" 0 / 10 * 10) 10
  let domain_expertise := founder_metrics.getN "founder_domain_expertise" 5
  -- `previous_exits` is computed but unused in `base_score`, as in the source
  let _previous_exits := pymin (founder_metrics.getN "founder_previous_exits" 0 * 2) 10
  let verification_bonus : ℚ :=
    (if founder_metrics.getB "linkedin_verified" false then 1 else 0) +
    (if founder_metrics.getB "education_verified" false then 1 else 0) +
    (if founder_metrics.getB "previous_companies_verified" false then 1 else 0)
  let leadership_score := founder_metrics.getN "leadership_experience" 5
  let commitment_score : ℚ := if founder_metrics.getB "full_time_commitment" true then 10 else 5
  let base_score :=
    founder_market_fit * (3/10) +
    experience_score * (2/10) +
    domain_expertise * (2/10) +
    leadership_score * (15/100) +
    commitment_score * (1/10) +
    verification_bonus * (5/100)
  let investor_weight := investor_weights.getN "founder_weight" (default_weights "founder_profile")
  let weighted_score := base_score * investor_weight / default_weights "founder_profile"
  { base_score := base_score, weighted_score := pymin weighted_score 10 }

/-- scoring_engine.py `ScoringEngine._score_problem_market`. -/
def score_problem_market (market_metrics : PyDict) (investor_weights : PyDict) : SegmentScore :=
  let tam := market_metrics.getN "total_addressable_market" 0
  let market_size_score := pymin (tam / 1000000000) 10
  let growth_rate := market_metrics.getN "market_growth_rate" 0
  let growth_score := pymin (growth_rate * 50) 10
  let problem_urgency := market_metrics.getN "problem_urgency_score" 5
  let _problem_frequency := market_metrics.getN "problem_frequency_score" 5
  let market_validation := market_metrics.getN "problem_market_validation" 5
  let competitive_intensity := market_metrics.getN "competitive_intensity" 5
  let competitive_score := 10 - (competitive_intensity * (5/10))
  let timing_score := market_metrics.getN "market_timing_score" 5
  let base_score :=
    market_size_score * (25/100) +
    growth_score * (2/10) +
    problem_urgency * (15/100) +
    market_validation * (15/100) +
    competitive_score * (15/100) +
    timing_score * (1/10)
  let investor_weight := investor_weights.getN "market_weight" (default_weights "problem_market_size")
  let weighted_score := base_score * investor_weight / default_weights "problem_market_size"
  { base_score := base_score, weighted_score := pymin weighted_score 10 }

/-- scoring_engine.py `ScoringEngine._score_differentiator`. -/
def score_differentiator (diff_metrics : PyDict) (investor_weights : PyDict) : SegmentScore :=
  let tech_novelty := diff_metrics.getN "technology_novelty_score" 5
  let ip_strength := diff_metrics.getN "ip_portfolio_strength" 5
  let _tech_complexity := diff_metrics.getN "technical_complexity" 5
  let bm_novelty := diff_metrics.getN "business_model_novelty" 5
  let _revenue_model := diff_metrics.getN "revenue_model_strength" 5
  let scalability := diff_metrics.getN "scalability_potential" 5
  let value_prop := diff_metrics.getN "value_proposition_clarity" 5
  let _customer_focus := diff_metrics.getN "customer_segment_focus" 5
  let first_mover := diff_metrics.getN "first_mover_advantage" 5
  let switching_costs := diff_metrics.getN "switching_costs" 5
  let network_effects := diff_metrics.getN "network_effects_potential" 5
  let base_score :=
    tech_novelty * (2/10) +
    ip_strength * (15/100) +
    bm_novelty * (15/100) +
    scalability * (15/100) +
    value_prop * (1/10) +
    first_mover * (1/10) +
    network_effects * (1/10) +
    switching_costs * (5/100)
  let investor_weight := investor_weights.getN "differentiation_weight" (default_weights "unique_differentiator")
  let weighted_score := base_score * investor_weight / default_weights "unique_differentiator"
  { base_score := base_score, weighted_score := pymin weighted_score 10 }

/-- scoring_engine.py `ScoringEngine._score_team_traction`. -/
def score_team_traction (traction_metrics : PyDict) (investor_weights : PyDict) : SegmentScore :=
  let arr := traction_metrics.getN "annual_recurring_revenue" 0
  let revenue_score := pymin (arr / 1000000) 10
  let revenue_growth := traction_metrics.getN "revenue_growth_rate" 0
  let growth_score := pymin (revenue_growth * 10) 10
  let ltv_cac_ratio := traction_metrics.getN "ltv_cac_ratio" 0
  let unit_econ_score := pymin (ltv_cac_ratio / 3) 10
  let customer_count := traction_metrics.getN "total_customers" 0
  let customer_score := pymin (customer_count / 1000) 10
  let retention_rate := traction_metrics.getN "customer_retention_rate" 0
  let retention_score := retention_rate * 10
  let team_size := traction_metrics.getN "team_size" 0
  let team_score := pymin (team_size / 10) 10
  let funding_efficiency := traction_metrics.getN "funding_efficiency" 0
  let efficiency_score := pymin (funding_efficiency * 10) 10
  let base_score :=
    revenue_score * (25/100) +
    growth_score * (2/10) +
    unit_econ_score * (15/100) +
    retention_score * (15/100) +
    customer_score * (1/10) +
    team_score * (1/10) +
    efficiency_score * (5/100)
  let investor_weight := investor_weights.getN "traction_weight" (default_weights "team_traction")
  let weighted_score := base_score * investor_weight / default_weights "team_traction"
  { base_score := base_score, weighted_score := pymin weighted_score 10 }

/-- scoring_engine.py `ScoringEngine._calculate_overall_score`.  The four
arguments are the `weighted_score` entries the source looks up in its
`segment_scores` dict. -/
def calculate_overall_score (founder_score market_score diff_score traction_score : ℚ)
    (investor_weights : PyDict) : ℚ :=
  let founder_weight := investor_weights.getN "founder_weight" (default_weights "founder_profile")
  let market_weight := investor_weights.getN "market_weight" (default_weights "problem_market_size")
  let diff_weight := investor_weights.getN "differentiation_weight" (default_weights "unique_differentiator")
  let traction_weight := investor_weights.getN "traction_weight" (default_weights "team_traction")
  let total_weight := founder_weight + market_weight + diff_weight + traction_weight
  let founder_weight := if total_weight > 0 then founder_weight / total_weight else founder_weight
  let market_weight := if total_weight > 0 then market_weight / total_weight else market_weight
  let diff_weight := if total_weight > 0 then diff_weight / total_weight else diff_weight
  let traction_weight := if total_weight > 0 then traction_weight / total_weight else traction_weight
  let overall_score :=
    founder_score * founder_weight +
    market_score * market_weight +
    diff_score * diff_weight +
    traction_score * traction_weight
  pymin overall_score 10

/-! ## agents/mapping_agent.py (deterministic path, `use_vertex = False`) -/

/-- The extracted-data mapping fed to `MappingAgent.map_to_startup_profile`:
a loosely-typed dict, modelled with one optional field per key the code reads.
`none` means the key is absent. -/
structure ExtractedData where
  company_name : Option String := none
  problem_statement : Option String := none
  solution : Option String := none
  differentiator : Option String := none
  unique_differentiator : Option String := none
  funding_stage : Option String := none
  funding_amount : Option ℚ := none
  market_size : Option ℚ := none
  revenue : Option ℚ := none
  employees : Option ℚ := none
  founders : Option (List PyDict) := none
  market_analysis : Option PyDict := none
  business_metrics : Option PyDict := none

/-- mapping_agent.py `MappingAgent._calculate_founder_market_fit`, fallback
branch (no AI): experience plus a domain-keyword bonus, capped at 10.  The
`market` argument is only used by the AI prompt and is ignored here, as in the
source. -/
def calculate_founder_market_fit (founder_info : PyDict) (problem : String)
    (_market : PyDict) : ℚ :=
  let experience_years := founder_info.getN "experience_years" 0
  let domain_match : ℚ :=
    if hasSubstr (pyLower problem) (pyLower (founder_info.getS "domain_expertise" ""))
    then 1 else 0
  pymin 10 (5 + (experience_years * (3/10)) + (domain_match * 2))

/-- mapping_agent.py `MappingAgent._extract_founders`: one `FounderProfile`
per entry of `data.get('founders', [])`, each field `or`-defaulted.  (The
source's early return on an empty list and its append loop are the same map.) -/
def extract_founders (data : ExtractedData) : List FounderProfile :=
  let founders_data := data.founders.getD []
  founders_data.map fun founder_info =>
    let fit_score := calculate_founder_market_fit founder_info
      ((data.problem_statement).getD "") ((data.market_analysis).getD emptyPyDict)
    { name := pyOrS (founder_info.str "name") "Unknown Founder"
      background := pyOrS (founder_info.str "background") "Background not specified"
      experience_years := some (pyOrN (founder_info.num "experience_years") 5)
      previous_exits := some (pyOrN (founder_info.num "previous_exits") 0)
      domain_expertise := some (pyOrS (founder_info.str "domain_expertise") "Business")
      founder_market_fit_score := some (pyOrN0 fit_score 6) }

/-- mapping_agent.py `MappingAgent._extract_market_analysis`. -/
def extract_market_analysis (data : ExtractedData) : MarketAnalysis :=
  let market_data := data.market_analysis.getD emptyPyDict
  let market_size := pyOrN0 ((data.market_size).getD 0) (market_data.getN "market_size" 0)
  { market_size := market_size
    growth_rate := market_data.getN "growth_rate" (3/20)
    competition_level := market_data.getS "competition_level" "medium"
    key_players := (market_data.strlist "key_players").getD ["Competitor A", "Competitor B"]
    market_maturity := market_data.getS "market_maturity" "Growing" }

/-- mapping_agent.py `MappingAgent._extract_business_metrics`. -/
def extract_business_metrics (data : ExtractedData) : BusinessMetrics :=
  let metrics_data := data.business_metrics.getD emptyPyDict
  let revenue := pyOrNN data.revenue (metrics_data.num "revenue")
  let employees := pyOrNN data.employees (metrics_data.num "employees")
  let growth_default : Option ℚ :=
    match revenue with
    | some r => if r ≠ 0 ∧ r > 0 then some (2/10) else none
    | none => none
  { revenue := revenue
    revenue_growth := (metrics_data.num "revenue_growth").orElse fun _ => growth_default
    employees := employees
    cac := metrics_data.num "cac"
    ltv := metrics_data.num "ltv"
    churn_rate := metrics_data.num "churn_rate"
    burn_rate := metrics_data.num "burn_rate" }

/-- The placeholder founder synthesized by `map_to_startup_profile` when the
extracted founders list is empty. -/
def placeholderFounder : FounderProfile :=
  { name := "Founder"
    background := "Industry expert"
    experience_years := some 5
    previous_exits := some 0
    domain_expertise := some "Business"
    founder_market_fit_score := some 6 }

/-- mapping_agent.py `MappingAgent.map_to_startup_profile`. -/
def map_to_startup_profile (extracted_data : ExtractedData) : StartupProfile :=
  let founders0 := extract_founders extracted_data
  let founders := if founders0.isEmpty then [placeholderFounder] else founders0
  let market_analysis := extract_market_analysis extracted_data
  let business_metrics := extract_business_metrics extracted_data
  let differentiator :=
    pyOrS0 ((extracted_data.differentiator).getD "")
      ((extracted_data.unique_differentiator).getD "")
  let differentiator :=
    if differentiator = "" then
      let solution := (extracted_data.solution).getD ""
      if solution ≠ "" then "Innovative approach: " ++ solution.take 100
      else "Unique market positioning"
    else differentiator
  { company_name := pyOrS extracted_data.company_name "Unknown Company"
    founders := founders
    problem_statement := pyOrS extracted_data.problem_statement "Problem not identified"
    solution := pyOrS extracted_data.solution "Solution not identified"
    unique_differentiator := differentiator
    market_analysis := market_analysis
    business_metrics := business_metrics
    funding_stage := pyOrS extracted_data.funding_stage "Seed"
    funding_amount := extracted_data.funding_amount }

/-! ## agents/public_data_agent.py (deterministic path, `use_vertex = False`) -/

/-- Result dict of `PublicDataAgent.verify_claims`. -/
structure VerificationResult where
  market_size_accuracy : String
  competition_accuracy : String
  founder_credibility : String
  red_flags : List String
  confidence_score : ℚ

/-- public_data_agent.py `PublicDataAgent.verify_claims` with the AI model
unavailable: the AI call is skipped and the function falls through to its
final `return`, a constant dict independent of both arguments. -/
def verify_claims (_startup_profile : StartupProfile) (_public_data : PyDict) : VerificationResult :=
  { market_size_accuracy := "unknown"
    competition_accuracy := "unknown"
    founder_credibility := "unknown"
    red_flags := []
    confidence_score := 5 }

/-! ## agents/analysis_agent.py: risks and recommendation -/

/-- analysis_agent.py `AnalysisAgent._generate_mitigation_strategies`: one
strategy per risk factor whose lower-cased text mentions a known keyword. -/
def generate_mitigation_strategies (risk_factors : List String) : List String :=
  risk_factors.flatMap fun risk =>
    if hasSubstr (pyLower risk) "competition".data then
      ["Focus on unique value proposition and customer retention"]
    else if hasSubstr (pyLower risk) "churn".data then
      ["Implement customer success programs and product improvements"]
    else if hasSubstr (pyLower risk) "revenue".data then
      ["Develop clear monetization strategy and sales pipeline"]
    else []

/-- analysis_agent.py `AnalysisAgent._assess_risks`: three possible risk
factors, then a level from the factor count. -/
def assess_risks (startup : StartupProfile) : RiskAssessment :=
  let risk_factors : List String := []
  let risk_factors :=
    if startup.market_analysis.competition_level = "high" then
      risk_factors ++ ["High competition in market"] else risk_factors
  let risk_factors :=
    match startup.business_metrics.churn_rate with
    | some churn_rate =>
        if churn_rate > 1/10 then risk_factors ++ ["High customer churn rate"] else risk_factors
    | none => risk_factors
  let risk_factors :=
    if !pyTruthyN startup.business_metrics.revenue ∨ startup.business_metrics.revenue = some 0
    then risk_factors ++ ["No revenue traction"] else risk_factors
  let risk_level :=
    if risk_factors.length > 3 then "high"
    else if risk_factors.length > 1 then "medium"
    else "low"
  { risk_level := risk_level
    risk_factors := risk_factors
    mitigation_strategies := generate_mitigation_strategies risk_factors }

/-- analysis_agent.py `AnalysisAgent._generate_recommendation`: fixed
threshold tiers over (score, risk level).  The `startup` argument is unused in
the source as well. -/
def generate_recommendation (_startup : StartupProfile) (score : ℚ) (risk : RiskAssessment) : String :=
  if score ≥ 8 ∧ risk.risk_level = "low" then
    "STRONG BUY - High potential with manageable risks"
  else if score ≥ 13/2 ∧ (risk.risk_level = "low" ∨ risk.risk_level = "medium") then
    "BUY - Good opportunity with acceptable risk profile"
  else if score ≥ 5 then
    "HOLD - Monitor progress, consider follow-on rounds"
  else
    "PASS - Significant concerns outweigh potential"

/-! ## agents/orchestrator_agent.py `_generate_draft_memo` -/

/-- Python `round(q, 1)` (round-half-to-even to one decimal).  The embedded
draft-memo scores are never exact midpoints of a tenth, so half-up rounding
agrees with Python's banker's rounding at every reachable input. -/
def pyRound1 (q : ℚ) : ℚ := (⌊q * 10 + 1/2⌋ : ℤ) / 10

/-- The fields of the draft memo dict built by `_generate_draft_memo` that
carry scoring logic; the narrative fields (executive summary, key findings,
strengths, concerns, next steps) are constant templating and are omitted. -/
structure DraftMemo where
  company_name : String
  preliminary_score : ℚ
  recommendation : String

/-- orchestrator_agent.py `OrchestratorAgent._generate_draft_memo`: three
two-valued heuristic sub-scores averaged into a preliminary score, and a
recommendation from red flags, confidence and that score. -/
def generate_draft_memo (pitch_data : PyDict) (public_data : PyDict)
    (verification : PyDict) : DraftMemo :=
  let market_score : ℚ :=
    if verification.getS "market_size_accuracy" "" = "accurate"
        ∨ verification.getS "market_size_accuracy" "" = "verified" then 7 else 5
  let founder_score : ℚ :=
    if verification.getS "founder_credibility" "" = "verified"
        ∨ verification.getS "founder_credibility" "" = "high" then 8 else 6
  let competition_score : ℚ := if public_data.getLen "competitors" ≤ 3 then 6 else 4
  let overall_score := (market_score + founder_score + competition_score) / 3
  let red_flags := verification.getSL "red_flags"
  let recommendation :=
    if red_flags.length > 2 ∨ verification.getN "confidence_score" 5 < 4 then
      "PASS - Significant verification concerns"
    else if overall_score ≥ 7 then
      "STRONG INTEREST - Proceed to detailed analysis"
    else if overall_score ≥ 5 then
      "MODERATE INTEREST - Requires deeper investigation"
    else
      "WEAK INTEREST - High risk factors identified"
  { company_name := pitch_data.getS "company_name" "Unknown"
    preliminary_score := pyRound1 overall_score
    recommendation := recommendation }

/-! ## agents/orchestrator_agent.py `execute_full_pipeline`

The pipeline's error handling is embedded over a dynamic dictionary value
type.  Each phase's *body* — the sequence of agent calls inside that phase's
`try:` block — is abstracted as an `Except String payload` oracle: `.ok`
carries the values the body would produce, `.error e` models the body raising
an exception whose `str()` is `e`.  The phase functions below are the
`try/except` wrappers from the source, which turn a body outcome into the
result dict the phase returns. -/

/-- A dynamic Python value, as far as the pipeline plumbing inspects one. -/
inductive PyVal where
  | vnone
  | vbool (b : Bool)
  | vnum (q : ℚ)
  | vstr (s : String)
  | vstrlist (xs : List String)
  | vdict (fields : List (String × PyVal))

/-- First-match lookup in a field list; fields are prepended on update, so
this realizes Python's key overwrite semantics. -/
def lookupField : List (String × PyVal) → String → Option PyVal
  | [], _ => none
  | (k, v) :: t, key => if k = key then some v else lookupField t key

/-- `d.get(key)` (`None` default collapsed with "absent"). -/
def PyVal.get : PyVal → String → Option PyVal
  | .vdict fields, key => lookupField fields key
  | _, _ => none

/-- Python truthiness of `d.get(key)`. -/
def pyTruthy : Option PyVal → Bool
  | none => false
  | some .vnone => false
  | some (.vbool b) => b
  | some (.vnum q) => !(q == 0)
  | some (.vstr s) => !(s == "")
  | some (.vstrlist xs) => !xs.isEmpty
  | some (.vdict fields) => !fields.isEmpty

/-- orchestrator_agent.py `OrchestratorAgent._execute_phase1`: wrap the body
outcome; on success the result carries the extracted data. -/
def execute_phase1 (body : Except String PyVal) : PyVal :=
  match body with
  | .ok extracted_data =>
      .vdict [("success", .vbool true), ("extracted_data", extracted_data)]
  | .error e => .vdict [("success", .vbool false), ("error", .vstr e)]

/-- orchestrator_agent.py `OrchestratorAgent._execute_phase1b`: first the
in-`try` guard on Phase 1A success, then the body (public-data search,
mapping, verification, comparison summary, draft memo). -/
def execute_phase1b (phase1a_result : PyVal)
    (body : Except String (PyVal × PyVal × PyVal × PyVal × PyVal)) : PyVal :=
  if !pyTruthy (phase1a_result.get "success") then
    .vdict [("success", .vbool false), ("error", .vstr "Phase 1A failed")]
  else
    match body with
    | .ok (startup_profile, public_data, verification, comparison_summary, draft_memo) =>
        .vdict [("success", .vbool true),
                ("startup_profile", startup_profile),
                ("public_data", public_data),
                ("verification", verification),
                ("comparison_summary", comparison_summary),
                ("draft_memo", draft_memo)]
    | .error e => .vdict [("success", .vbool false), ("error", .vstr e)]

/-- orchestrator_agent.py `OrchestratorAgent._execute_phase2` wrapper. -/
def execute_phase2 (body : Except String (PyVal × PyVal × PyVal)) : PyVal :=
  match body with
  | .ok (investment_memo, comparison_insights, verification_summary) =>
      .vdict [("success", .vbool true),
              ("investment_memo", investment_memo),
              ("comparison_insights", comparison_insights),
              ("verification_summary", verification_summary)]
  | .error e => .vdict [("success", .vbool false), ("error", .vstr e)]

/-- orchestrator_agent.py `OrchestratorAgent._execute_phase3` wrapper.  The
startup profile argument is only consumed by the body. -/
def execute_phase3 (_startup_profile : PyVal)
    (body : Except String (PyVal × PyVal)) : PyVal :=
  match body with
  | .ok (scheduling_result, interview_data) =>
      .vdict [("success", .vbool true),
              ("scheduling_result", scheduling_result),
              ("interview_data", interview_data)]
  | .error e => .vdict [("success", .vbool false), ("error", .vstr e)]

/-- orchestrator_agent.py `OrchestratorAgent._execute_phase4` wrapper: note
that its except-branch result has a `refinement_completed` key and NO
`success` key, unlike the other phases. -/
def execute_phase4 (_original_memo _public_data _interview_data : PyVal)
    (body : Except String (PyVal × PyVal)) : PyVal :=
  match body with
  | .ok (refined_memo, comparison_report) =>
      .vdict [("refinement_completed", .vbool true),
              ("refined_memo", refined_memo),
              ("comparison_report", comparison_report),
              ("data_sources_used", .vnum 4),
              ("refinement_quality", .vstr "comprehensive")]
  | .error e =>
      .vdict [("refinement_completed", .vbool false), ("error", .vstr e)]

/-- orchestrator_agent.py `OrchestratorAgent._handle_pipeline_failure`: mark
the accumulated pipeline_results dict failed, keeping what was recorded. -/
def handle_pipeline_failure (pipeline_results : List (String × PyVal))
    (error_message : String) (now : String) : PyVal :=
  .vdict (("partial_results", .vbool true) ::
          ("end_time", .vstr now) ::
          ("error", .vstr error_message) ::
          ("success", .vbool false) :: pipeline_results)

/-- The body outcomes of the five phases plus the (abstracted) wall clock. -/
structure PipelineOracles where
  now : String
  phase1Body : Except String PyVal
  phase1bBody : Except String (PyVal × PyVal × PyVal × PyVal × PyVal)
  phase2Body : Except String (PyVal × PyVal × PyVal)
  phase3Body : Except String (PyVal × PyVal)
  phase4Body : Except String (PyVal × PyVal)

/-- The `pipeline_results` accumulator dict, with the phase results and agent
names recorded so far. -/
def mkPipelineResults (now : String) (results : List (String × PyVal))
    (agents_executed : List String) : List (String × PyVal) :=
  [("pipeline_id", .vstr ("pipeline_" ++ now)),
   ("start_time", .vstr now),
   ("agents_executed", .vstrlist agents_executed),
   ("results", .vdict results),
   ("errors", .vstrlist [])]

/-- orchestrator_agent.py `OrchestratorAgent.execute_full_pipeline`.  The
outer `try/except` catches the two key lookups that can raise
(`phase1b_results["startup_profile"]`, `phase2_results["investment_memo"]`)
and routes them to `_handle_pipeline_failure`, exactly as the source's
`except Exception as e` does with the `pipeline_results` accumulated so far;
every other statement in the `try` block is total. -/
def execute_full_pipeline (o : PipelineOracles) : PyVal :=
  let phase1a_results := execute_phase1 o.phase1Body
  let results1 := [("phase1a", phase1a_results)]
  let agents1 := ["extraction"]
  if !pyTruthy (phase1a_results.get "success") then
    handle_pipeline_failure (mkPipelineResults o.now results1 agents1) "Phase 1A failed" o.now
  else
  let phase1b_results := execute_phase1b phase1a_results o.phase1bBody
  let results2 := results1 ++ [("phase1b", phase1b_results)]
  let agents2 := agents1 ++ ["public_data", "mapping"]
  if !pyTruthy (phase1b_results.get "success") then
    handle_pipeline_failure (mkPipelineResults o.now results2 agents2) "Phase 1B failed" o.now
  else
  let phase2_results := execute_phase2 o.phase2Body
  let results3 := results2 ++ [("phase2", phase2_results)]
  let agents3 := agents2 ++ ["analysis"]
  match phase1b_results.get "startup_profile" with
  | none =>
      -- KeyError from `phase1b_results["startup_profile"]`, caught by the outer except
      handle_pipeline_failure (mkPipelineResults o.now results3 agents3) "'startup_profile'" o.now
  | some startup_profile =>
  let phase3_results := execute_phase3 startup_profile o.phase3Body
  let results4 := results3 ++ [("phase3", phase3_results)]
  let agents4 := agents3 ++ ["scheduling", "voice_interview"]
  match phase2_results.get "investment_memo" with
  | none =>
      -- KeyError from `phase2_results["investment_memo"]`, caught by the outer except
      handle_pipeline_failure (mkPipelineResults o.now results4 agents4) "'investment_memo'" o.now
  | some investment_memo =>
  let phase4_results := execute_phase4 investment_memo
    ((phase1b_results.get "public_data").getD (.vdict []))
    ((phase3_results.get "interview_data").getD (.vdict []))
    o.phase4Body
  let results5 := results4 ++ [("phase4", phase4_results)]
  let agents5 := agents4 ++ ["memo_refinement"]
  .vdict (("end_time", .vstr o.now) ::
          ("final_memo", (phase4_results.get "refined_memo").getD .vnone) ::
          ("success", .vbool true) ::
          mkPipelineResults o.now results5 agents5)

/-! ## Derived notions and concrete inputs used by the verification -/

/-- The ordering of recommendation tiers used by the spec:
STRONG BUY (3) > BUY (2) > HOLD (1) > PASS (0). -/
def recommendationTier (rec : String) : ℕ :=
  if rec = "STRONG BUY - High potential with manageable risks" then 3
  else if rec = "BUY - Good opportunity with acceptable risk profile" then 2
  else if rec = "HOLD - Monitor progress, consider follow-on rounds" then 1
  else 0

/-- A metrics mapping for `_score_problem_market` with every sub-metric given
as 0 except a competitive intensity of 30. -/
def intenseCompetitionMetrics : PyDict :=
  { num := fun k =>
      if k = "competitive_intensity" then some 30
      else if k = "total_addressable_market" ∨ k = "market_growth_rate"
          ∨ k = "problem_urgency_score" ∨ k = "problem_market_validation"
          ∨ k = "market_timing_score" then some 0
      else none }

/-- An investor-weights mapping that sets all four segment weights to 0. -/
def allZeroWeights : PyDict :=
  { num := fun k =>
      if k = "founder_weight" ∨ k = "market_weight"
          ∨ k = "differentiation_weight" ∨ k = "traction_weight" then some 0
      else none }

/-- A startup profile claiming a market size of $200B and positive revenue. -/
def inflatedProfile : StartupProfile :=
  { company_name := "BigClaims Inc"
    founders := [placeholderFounder]
    problem_statement := "problem"
    solution := "solution"
    unique_differentiator := "differentiator"
    market_analysis :=
      { market_size := 200000000000
        growth_rate := 1/10
        competition_level := "medium"
        key_players := []
        market_maturity := "Growing" }
    business_metrics := { revenue := some 5 }
    funding_stage := "Seed" }

/-- A founder-info dict whose domain expertise "AI" appears in the problem
text below. -/
def aiFounderInfo : PyDict :=
  { num := fun k => if k = "experience_years" then some 4 else none
    str := fun k => if k = "domain_expertise" then some "AI" else none }

/-- Pipeline oracles where every phase body succeeds with minimal payloads
carrying the keys the glue code reads. -/
def okOracles : PipelineOracles :=
  { now := "t0"
    phase1Body := .ok (.vdict [])
    phase1bBody := .ok (.vdict [], .vdict [], .vdict [], .vdict [], .vdict [])
    phase2Body := .ok (.vdict [], .vdict [], .vdict [])
    phase3Body := .ok (.vdict [], .vdict [])
    phase4Body := .ok (.vdict [], .vstr "report") }

/-- Pipeline oracles identical to `okOracles` except that the phase-4 body
raises an exception "boom". -/
def phase4FailOracles : PipelineOracles :=
  { okOracles with phase4Body := .error "boom" }

/-! ## Helper lemmas -/

/-- `pymin a b` is at most its left argument. -/
theorem pymin_le_left (a b : ℚ) : pymin a b ≤ a := by
  unfold pymin; split_ifs <;> linarith

/-- `pymin a b` is at most its right argument. -/
theorem pymin_le_right (a b : ℚ) : pymin a b ≤ b := by
  unfold pymin; split_ifs <;> linarith

/-- The left argument bounds `pymax a b` from below. -/
theorem le_pymax_left (a b : ℚ) : a ≤ pymax a b := by
  unfold pymax; split_ifs <;> linarith

/-- The clamp `pymin 10 (pymax 0 x)` is nonnegative. -/
theorem clamp_nonneg (x : ℚ) : 0 ≤ pymin 10 (pymax 0 x) := by
  unfold pymin pymax; split_ifs <;> linarith

/-- The clamp `pymin 10 (pymax 0 x)` is at most 10. -/
theorem clamp_le_ten (x : ℚ) : pymin 10 (pymax 0 x) ≤ 10 := pymin_le_left 10 _

/-! ## Claim theorems -/

/-- Claim C1, counterexample: on the metrics mapping with competitive
intensity 30 and all other problem-market sub-metrics 0 (with default
investor weights), the segment's `weighted_score` is negative — the code only
clips `weighted_score` from above (`min(..., 10.0)`), never from below. -/
theorem segment_weighted_score_can_be_negative :
    (score_problem_market intenseCompetitionMetrics emptyPyDict).weighted_score < 0 := by
  simp [score_problem_market, PyDict.getN, pymin, default_weights,
    Config.SCORING_SEGMENTS, emptyPyDict, intenseCompetitionMetrics]
  norm_num

/-- Claim C1 (amended): `AnalysisAgent._calculate_investment_score` is always
in [0, 10]; each `ScoringEngine` segment's `weighted_score` is at most 10 for
every metrics and investor-weights mapping, but it is NOT clipped below and
can be negative. -/
theorem investment_score_in_range_and_segments_le_ten :
    (∀ (startup : StartupProfile) (preferences : InvestorPreferences),
        0 ≤ calculate_investment_score startup preferences ∧
        calculate_investment_score startup preferences ≤ 10) ∧
    (∀ (m w : PyDict), (score_founder_profile m w).weighted_score ≤ 10) ∧
    (∀ (m w : PyDict), (score_problem_market m w).weighted_score ≤ 10) ∧
    (∀ (m w : PyDict), (score_differentiator m w).weighted_score ≤ 10) ∧
    (∀ (m w : PyDict), (score_team_traction m w).weighted_score ≤ 10) := by
  refine ⟨fun s p => ⟨clamp_nonneg _, clamp_le_ten _⟩,
    fun m w => pymin_le_right _ 10, fun m w => pymin_le_right _ 10,
    fun m w => pymin_le_right _ 10, fun m w => pymin_le_right _ 10⟩

/-- Claim C4, counterexample: with all four investor weights set to 0 and all
four segment weighted scores equal to 8, `_calculate_overall_score` returns 0,
not the plain average 8 — there is no fall-back to equal weights. -/
theorem overall_score_zero_weights_is_zero_not_average :
    calculate_overall_score 8 8 8 8 allZeroWeights = 0 ∧
    (8 + 8 + 8 + 8 : ℚ) / 4 = 8 ∧ (0 : ℚ) ≠ 8 := by
  refine ⟨?_, by norm_num, by norm_num⟩
  simp [calculate_overall_score, PyDict.getN, pymin, default_weights,
    Config.SCORING_SEGMENTS, allZeroWeights]

/-- Claim C4 (amended): if all four investor weights are 0, the normalization
step is skipped (avoiding the division by zero), the weights remain 0, and the
overall score is 0 regardless of the segment scores — not the plain average. -/
theorem overall_score_all_zero_weights (f m d t : ℚ) (w : PyDict)
    (h1 : w.getN "founder_weight" (default_weights "founder_profile") = 0)
    (h2 : w.getN "market_weight" (default_weights "problem_market_size") = 0)
    (h3 : w.getN "differentiation_weight" (default_weights "unique_differentiator") = 0)
    (h4 : w.getN "traction_weight" (default_weights "team_traction") = 0) :
    calculate_overall_score f m d t w = 0 := by
  simp [calculate_overall_score, h1, h2, h3, h4, pymin]

/-- Witness for C4's amended theorem at the all-zero weights mapping. -/
theorem overall_score_all_zero_weights_witness :
    calculate_overall_score 3 4 5 6 allZeroWeights = 0 :=
  overall_score_all_zero_weights 3 4 5 6 allZeroWeights
    (by simp [PyDict.getN, allZeroWeights])
    (by simp [PyDict.getN, allZeroWeights])
    (by simp [PyDict.getN, allZeroWeights])
    (by simp [PyDict.getN, allZeroWeights])

/-- Claim C5, counterexample: with the AI model unavailable,
`PublicDataAgent.verify_claims` on a profile claiming a $200B market (greater
than $100B) and positive revenue still returns `market_size_accuracy =
"unknown"` with `confidence_score = 5` — not "inflated" with confidence 0.8,
and there is no revenue-verification outcome at all. -/
theorem verify_claims_fallback_is_unknown_not_inflated :
    (verify_claims inflatedProfile emptyPyDict).market_size_accuracy = "unknown" ∧
    (verify_claims inflatedProfile emptyPyDict).market_size_accuracy ≠ "inflated" ∧
    (verify_claims inflatedProfile emptyPyDict).confidence_score = 5 ∧
    (verify_claims inflatedProfile emptyPyDict).confidence_score ≠ 8/10 := by
  refine ⟨rfl, by simp [verify_claims], rfl, by norm_num [verify_claims]⟩

/-- Claim C5 (amended): with the AI model unavailable, `verify_claims`
returns, for every profile and public-data mapping, the constant result
`{market_size_accuracy: "unknown", competition_accuracy: "unknown",
founder_credibility: "unknown", red_flags: [], confidence_score: 5}`,
independent of the profile's market size and revenue. -/
theorem verify_claims_fallback_constant (profile : StartupProfile) (public_data : PyDict) :
    verify_claims profile public_data =
      { market_size_accuracy := "unknown"
        competition_accuracy := "unknown"
        founder_credibility := "unknown"
        red_flags := []
        confidence_score := 5 } := rfl

/-- Claim C9: `_assess_risks` can produce at most 3 risk factors (high
competition, churn above 10%, missing/zero revenue are the only candidates),
so the factor count never exceeds 3 and the `"high"` level — which requires
more than 3 factors — is unreachable: the risk level is always `"low"` or
`"medium"`. -/
theorem assess_risks_level_low_or_medium (startup : StartupProfile) :
    (assess_risks startup).risk_factors.length ≤ 3 ∧
    ((assess_risks startup).risk_level = "low" ∨
      (assess_risks startup).risk_level = "medium") := by
  unfold assess_risks
  rcases startup.business_metrics.churn_rate with _ | c <;>
    simp only [] <;> split_ifs <;> simp_all

/-- Claim C2: for every extracted-data mapping, the mapped profile has a
non-empty founders list, and when the extracted founders list is empty or
absent it is exactly one synthesized placeholder founder with
`founder_market_fit_score = 6.0`. -/
theorem mapped_profile_founders_nonempty (extracted_data : ExtractedData) :
    (map_to_startup_profile extracted_data).founders ≠ [] ∧
    (extracted_data.founders.getD [] = [] →
      (map_to_startup_profile extracted_data).founders = [placeholderFounder]) := by
  constructor
  · by_cases h : (extract_founders extracted_data).isEmpty <;>
      simp [map_to_startup_profile, h]
    simpa [List.isEmpty_iff] using h
  · intro h
    simp [map_to_startup_profile, extract_founders, h]

/-- Witness for C2 at the empty extracted-data mapping. -/
theorem mapped_profile_founders_nonempty_witness :
    (map_to_startup_profile {}).founders ≠ [] ∧
    (map_to_startup_profile {}).founders = [placeholderFounder] :=
  ⟨(mapped_profile_founders_nonempty {}).1,
   (mapped_profile_founders_nonempty {}).2 rfl⟩

/-- Claim C3: `_generate_recommendation` returns exactly the spec's tiers:
score≥8 with low risk gives STRONG BUY; otherwise score≥6.5 with low/medium
risk gives BUY; otherwise score≥5 gives HOLD; otherwise PASS — each as the
tier name, " - ", and its fixed qualifier phrase. -/
theorem recommendation_tiers (startup : StartupProfile) (score : ℚ) (risk : RiskAssessment) :
    (score ≥ 8 ∧ risk.risk_level = "low" →
      generate_recommendation startup score risk =
        "STRONG BUY - High potential with manageable risks") ∧
    (¬(score ≥ 8 ∧ risk.risk_level = "low") →
      score ≥ 13/2 ∧ (risk.risk_level = "low" ∨ risk.risk_level = "medium") →
      generate_recommendation startup score risk =
        "BUY - Good opportunity with acceptable risk profile") ∧
    (¬(score ≥ 8 ∧ risk.risk_level = "low") →
      ¬(score ≥ 13/2 ∧ (risk.risk_level = "low" ∨ risk.risk_level = "medium")) →
      score ≥ 5 →
      generate_recommendation startup score risk =
        "HOLD - Monitor progress, consider follow-on rounds") ∧
    (¬(score ≥ 8 ∧ risk.risk_level = "low") →
      ¬(score ≥ 13/2 ∧ (risk.risk_level = "low" ∨ risk.risk_level = "medium")) →
      ¬score ≥ 5 →
      generate_recommendation startup score risk =
        "PASS - Significant concerns outweigh potential") := by
  refine ⟨fun h1 => ?_, fun h1 h2 => ?_, fun h1 h2 h3 => ?_, fun h1 h2 h3 => ?_⟩
  · simp [generate_recommendation, h1]
  · simp [generate_recommendation, h1, h2]
  · simp [generate_recommendation, h1, h2, h3]
  · simp [generate_recommendation, h1, h2, h3]

/-- Witness for C3 at concrete inputs in each of the four tiers. -/
theorem recommendation_tiers_witness :
    generate_recommendation inflatedProfile 9 ⟨"low", [], []⟩ =
      "STRONG BUY - High potential with manageable risks" ∧
    generate_recommendation inflatedProfile 7 ⟨"medium", [], []⟩ =
      "BUY - Good opportunity with acceptable risk profile" ∧
    generate_recommendation inflatedProfile 6 ⟨"high", [], []⟩ =
      "HOLD - Monitor progress, consider follow-on rounds" ∧
    generate_recommendation inflatedProfile 2 ⟨"high", [], []⟩ =
      "PASS - Significant concerns outweigh potential" :=
  ⟨(recommendation_tiers inflatedProfile 9 ⟨"low", [], []⟩).1 (by norm_num),
   (recommendation_tiers inflatedProfile 7 ⟨"medium", [], []⟩).2.1 (by norm_num) (by norm_num),
   (recommendation_tiers inflatedProfile 6 ⟨"high", [], []⟩).2.2.1 (by norm_num) (by norm_num) (by norm_num),
   (recommendation_tiers inflatedProfile 2 ⟨"high", [], []⟩).2.2.2 (by norm_num) (by norm_num) (by norm_num)⟩

/-- The tier of a generated recommendation as a function of score and risk
level (helper for the monotonicity claim). -/
theorem recommendationTier_generate (startup : StartupProfile) (score : ℚ)
    (risk : RiskAssessment) :
    recommendationTier (generate_recommendation startup score risk) =
      if score ≥ 8 ∧ risk.risk_level = "low" then 3
      else if score ≥ 13/2 ∧ (risk.risk_level = "low" ∨ risk.risk_level = "medium") then 2
      else if score ≥ 5 then 1
      else 0 := by
  unfold generate_recommendation recommendationTier
  split_ifs <;> simp_all

/-- Claim C6: for a fixed risk level, a higher score never yields a lower
recommendation tier (STRONG BUY > BUY > HOLD > PASS). -/
theorem recommendation_monotone (startup : StartupProfile) (risk : RiskAssessment)
    (s1 s2 : ℚ) (h : s1 ≤ s2) :
    recommendationTier (generate_recommendation startup s1 risk) ≤
      recommendationTier (generate_recommendation startup s2 risk) := by
  rw [recommendationTier_generate, recommendationTier_generate]
  split_ifs with h1 h2 h3 h4 h5 h6 h7 h8 h9
  all_goals try omega
  all_goals try (exfalso; push_neg at *; simp_all; try linarith)
  exfalso
  obtain ⟨hs1, hlm⟩ := h5
  obtain ⟨hnl, hnm⟩ := h7 (le_trans hs1 h)
  rcases hlm with hl | hm
  · exact hnl hl
  · exact hnm hm

/-- Witness for C6: raising the score from 5 to 9 at fixed low risk moves the
tier from HOLD (1) up to STRONG BUY (3), never down. -/
theorem recommendation_monotone_witness :
    recommendationTier (generate_recommendation inflatedProfile 5 ⟨"low", [], []⟩) ≤
      recommendationTier (generate_recommendation inflatedProfile 9 ⟨"low", [], []⟩) :=
  recommendation_monotone inflatedProfile ⟨"low", [], []⟩ 5 9 (by norm_num)

/-- `startsWithChars n h` holds exactly when `h` decomposes as `n ++ t`. -/
theorem startsWithChars_iff (n h : List Char) :
    startsWithChars n h = true ↔ ∃ t, h = n ++ t := by
  induction n generalizing h with
  | nil => simp [startsWithChars]
  | cons a as ih =>
    cases h with
    | nil => simp [startsWithChars]
    | cons b bs =>
      simp [startsWithChars, ih, and_assoc, eq_comm (a := b)]

/-- `hasSubstr hay needle` holds exactly when `needle` occurs contiguously in
`hay`, i.e. `hay = pre ++ needle ++ post` for some `pre`, `post`. -/
theorem hasSubstr_iff (hay needle : List Char) :
    hasSubstr hay needle = true ↔ ∃ pre post, hay = pre ++ needle ++ post := by
  induction hay with
  | nil =>
    simp only [hasSubstr, List.isEmpty_iff]
    constructor
    · rintro rfl; exact ⟨[], [], rfl⟩
    · rintro ⟨pre, post, hp⟩
      rcases List.append_eq_nil.mp (List.append_eq_nil.mp hp.symm).1 with ⟨-, h2⟩
      exact h2
  | cons c t ih =>
    simp only [hasSubstr, Bool.or_eq_true, startsWithChars_iff, ih]
    constructor
    · rintro (⟨post, hp⟩ | ⟨pre, post, hp⟩)
      · exact ⟨[], post, by simpa using hp⟩
      · exact ⟨c :: pre, post, by simp [hp]⟩
    · rintro ⟨pre, post, hp⟩
      cases pre with
      | nil => exact Or.inl ⟨post, by simpa using hp⟩
      | cons p ps =>
        obtain ⟨-, ht⟩ := List.cons_eq_cons.mp hp
        exact Or.inr ⟨ps, post, by simpa using ht⟩

/-- Claim C8: with the AI unavailable, `_calculate_founder_market_fit` equals
`min(10, 5 + experience_years*0.3 + 2*d)` where `d = 1` exactly when the
lower-cased domain-expertise string occurs in the lower-cased problem text
(an absent key reads as `""`, which occurs in every text, as in Python), and
the result never exceeds 10. -/
theorem founder_market_fit_formula (founder_info : PyDict) (problem : String)
    (market : PyDict) :
    calculate_founder_market_fit founder_info problem market ≤ 10 ∧
    ((∃ pre post, pyLower problem =
        pre ++ pyLower (founder_info.getS "domain_expertise" "") ++ post) →
      calculate_founder_market_fit founder_info problem market =
        pymin 10 (5 + founder_info.getN "experience_years" 0 * (3/10) + 2)) ∧
    ((¬ ∃ pre post, pyLower problem =
        pre ++ pyLower (founder_info.getS "domain_expertise" "") ++ post) →
      calculate_founder_market_fit founder_info problem market =
        pymin 10 (5 + founder_info.getN "experience_years" 0 * (3/10))) := by
  refine ⟨pymin_le_left _ _, fun hocc => ?_, fun hocc => ?_⟩
  · have hb : hasSubstr (pyLower problem)
        (pyLower (founder_info.getS "domain_expertise" "")) = true :=
      (hasSubstr_iff _ _).mpr hocc
    simp [calculate_founder_market_fit, hb]
  · have hb : hasSubstr (pyLower problem)
        (pyLower (founder_info.getS "domain_expertise" "")) = false := by
      rw [← Bool.not_eq_true, hasSubstr_iff]
      exact hocc
    simp [calculate_founder_market_fit, hb]

/-- Witness for C8: a founder with 4 years of experience and domain expertise
"AI" against the problem text "The AI platform problem" gets the
domain-match bonus and the score `min(10, 5 + 4*0.3 + 2) = 8.2`. -/
theorem founder_market_fit_formula_witness :
    calculate_founder_market_fit aiFounderInfo "The AI platform problem" emptyPyDict ≤ 10 ∧
    calculate_founder_market_fit aiFounderInfo "The AI platform problem" emptyPyDict =
      pymin 10 (5 + aiFounderInfo.getN "experience_years" 0 * (3/10) + 2) :=
  ⟨(founder_market_fit_formula aiFounderInfo "The AI platform problem" emptyPyDict).1,
   (founder_market_fit_formula aiFounderInfo "The AI platform problem" emptyPyDict).2.1
     ⟨"the ".data, " platform problem".data, by rfl⟩⟩

/-- Rounding to one decimal keeps a value of [5, 7] inside [5, 7]. -/
theorem pyRound1_mem_of_mem {q : ℚ} (h5 : 5 ≤ q) (h7 : q ≤ 7) :
    5 ≤ pyRound1 q ∧ pyRound1 q ≤ 7 := by
  unfold pyRound1
  have hlo : (50 : ℤ) ≤ ⌊q * 10 + 1/2⌋ := by
    apply Int.le_floor.mpr
    push_cast
    linarith
  have hhi : ⌊q * 10 + 1/2⌋ < (71 : ℤ) := by
    apply Int.floor_lt.mpr
    push_cast
    linarith
  constructor
  · rw [le_div_iff₀ (by norm_num)]
    have : ((50 : ℤ) : ℚ) ≤ (⌊q * 10 + 1/2⌋ : ℚ) := by exact_mod_cast hlo
    push_cast at this ⊢
    linarith
  · rw [div_le_iff₀ (by norm_num)]
    have : ((⌊q * 10 + 1/2⌋ : ℤ) : ℚ) ≤ ((70 : ℤ) : ℚ) := by
      exact_mod_cast Int.lt_add_one_iff.mp hhi
    push_cast at this ⊢
    linarith

/-- Claim C10: for every pitch-data, public-data and verification mapping,
the draft memo's `preliminary_score` lies in [5.0, 7.0] (each heuristic
sub-score is two-valued, so the average is between (5+6+4)/3 = 5 and
(7+8+6)/3 = 7), and the "WEAK INTEREST" recommendation — which requires a
score below 5 — is never produced. -/
theorem draft_memo_score_bounds (pitch_data public_data verification : PyDict) :
    5 ≤ (generate_draft_memo pitch_data public_data verification).preliminary_score ∧
    (generate_draft_memo pitch_data public_data verification).preliminary_score ≤ 7 ∧
    (generate_draft_memo pitch_data public_data verification).recommendation ≠
      "WEAK INTEREST - High risk factors identified" := by
  unfold generate_draft_memo
  split_ifs <;>
    refine ⟨(pyRound1_mem_of_mem (by norm_num) (by norm_num)).1,
      (pyRound1_mem_of_mem (by norm_num) (by norm_num)).2, ?_⟩ <;>
    (dsimp only; split_ifs <;> (try norm_num at *) <;> simp_all)

/-- Claim C7, counterexample: a phase-4 exception is NOT converted into a
`{success: false, error}` result — the phase-4 boundary produces
`{refinement_completed: false, error}` with no `success` key at all, and
`execute_full_pipeline` then reports overall `success: true` even though the
phase raised. -/
theorem phase4_failure_lacks_success_key :
    (execute_phase4 (.vdict []) (.vdict []) (.vdict []) (.error "boom")).get "success" = none ∧
    (execute_phase4 (.vdict []) (.vdict []) (.vdict []) (.error "boom")).get
      "refinement_completed" = some (.vbool false) ∧
    (execute_phase4 (.vdict []) (.vdict []) (.vdict []) (.error "boom")).get "error" =
      some (.vstr "boom") ∧
    (execute_full_pipeline phase4FailOracles).get "success" = some (.vbool true) := by
  refine ⟨?_, ?_, ?_, ?_⟩ <;>
    simp [execute_full_pipeline, execute_phase1, execute_phase1b, execute_phase2,
      execute_phase3, execute_phase4, handle_pipeline_failure, PyVal.get,
      lookupField, pyTruthy, mkPipelineResults, phase4FailOracles, okOracles]

/-- Claim C7 (amended): exceptions in phases 1A, 1B (when phase 1A
succeeded), 2 and 3 are caught at the phase boundary and converted into
`{success: false, error: str(e)}`; a phase-4 exception is caught but
converted into `{refinement_completed: false, error: str(e)}` without a
`success` key; and `execute_full_pipeline` is total — it returns either an
aggregate result with `success: true` or a structured failure object with
`success: false`, an `error` string, and `partial_results: true`, never
propagating a raw exception. -/
theorem pipeline_error_handling (o : PipelineOracles) :
    ((execute_full_pipeline o).get "success" = some (.vbool true) ∨
      ((execute_full_pipeline o).get "success" = some (.vbool false) ∧
       (∃ e, (execute_full_pipeline o).get "error" = some (.vstr e)) ∧
       (execute_full_pipeline o).get "partial_results" = some (.vbool true))) ∧
    (∀ e, (execute_phase1 (.error e)).get "success" = some (.vbool false) ∧
          (execute_phase1 (.error e)).get "error" = some (.vstr e)) ∧
    (∀ (p : PyVal) (e : String), pyTruthy (p.get "success") = true →
        (execute_phase1b p (.error e)).get "success" = some (.vbool false) ∧
        (execute_phase1b p (.error e)).get "error" = some (.vstr e)) ∧
    (∀ e, (execute_phase2 (.error e)).get "success" = some (.vbool false) ∧
          (execute_phase2 (.error e)).get "error" = some (.vstr e)) ∧
    (∀ (sp : PyVal) (e : String),
        (execute_phase3 sp (.error e)).get "success" = some (.vbool false) ∧
        (execute_phase3 sp (.error e)).get "error" = some (.vstr e)) ∧
    (∀ (m pd idata : PyVal) (e : String),
        (execute_phase4 m pd idata (.error e)).get "success" = none ∧
        (execute_phase4 m pd idata (.error e)).get "refinement_completed" =
          some (.vbool false) ∧
        (execute_phase4 m pd idata (.error e)).get "error" = some (.vstr e)) := by
  refine ⟨?_, fun e => ⟨rfl, rfl⟩, fun p e hp => ?_, fun e => ⟨rfl, rfl⟩,
    fun sp e => ⟨rfl, rfl⟩, fun m pd idata e => ⟨rfl, rfl, rfl⟩⟩
  · obtain ⟨now, b1, b2, b3, b4, b5⟩ := o
    rcases b1 with e1 | v1
    · right
      simp [execute_full_pipeline, execute_phase1, handle_pipeline_failure,
        PyVal.get, lookupField, pyTruthy, mkPipelineResults]
    · rcases b2 with e2 | ⟨sp, pd, ver, cs, dm⟩
      · right
        simp [execute_full_pipeline, execute_phase1, execute_phase1b,
          handle_pipeline_failure, PyVal.get, lookupField, pyTruthy, mkPipelineResults]
      · rcases b3 with e3 | ⟨memo, ci, vs⟩
        · right
          simp [execute_full_pipeline, execute_phase1, execute_phase1b,
            execute_phase2, execute_phase3, execute_phase4,
            handle_pipeline_failure, PyVal.get, lookupField, pyTruthy, mkPipelineResults]
        · left
          simp [execute_full_pipeline, execute_phase1, execute_phase1b,
            execute_phase2, execute_phase3, execute_phase4,
            PyVal.get, lookupField, pyTruthy, mkPipelineResults]
  · simp only [PyVal.get] at hp
    simp [execute_phase1b, hp, PyVal.get, lookupField]

/-- Witness for C7's amended theorem: a phase-1B exception "x" after a
successful phase 1A is converted into a failed result. -/
theorem pipeline_error_handling_witness :
    (execute_phase1b (execute_phase1 (.ok (.vdict []))) (.error "x")).get "success" =
      some (.vbool false) ∧
    (execute_phase1b (execute_phase1 (.ok (.vdict []))) (.error "x")).get "error" =
      some (.vstr "x") :=
  (pipeline_error_handling okOracles).2.2.1 (execute_phase1 (.ok (.vdict []))) "x" (by rfl)

/-- Witness for C1's amended theorem at concrete inputs. -/
theorem investment_score_in_range_witness :
    0 ≤ calculate_investment_score inflatedProfile {} ∧
    calculate_investment_score inflatedProfile {} ≤ 10 ∧
    (score_founder_profile emptyPyDict emptyPyDict).weighted_score ≤ 10 ∧
    (score_problem_market emptyPyDict emptyPyDict).weighted_score ≤ 10 ∧
    (score_differentiator emptyPyDict emptyPyDict).weighted_score ≤ 10 ∧
    (score_team_traction emptyPyDict emptyPyDict).weighted_score ≤ 10 :=
  ⟨(investment_score_in_range_and_segments_le_ten.1 inflatedProfile {}).1,
   (investment_score_in_range_and_segments_le_ten.1 inflatedProfile {}).2,
   investment_score_in_range_and_segments_le_ten.2.1 emptyPyDict emptyPyDict,
   investment_score_in_range_and_segments_le_ten.2.2.1 emptyPyDict emptyPyDict,
   investment_score_in_range_and_segments_le_ten.2.2.2.1 emptyPyDict emptyPyDict,
   investment_score_in_range_and_segments_le_ten.2.2.2.2 emptyPyDict emptyPyDict⟩

/-- Witness for C5's amended theorem at concrete inputs. -/
theorem verify_claims_fallback_constant_witness :
    verify_claims inflatedProfile emptyPyDict =
      { market_size_accuracy := "unknown"
        competition_accuracy := "unknown"
        founder_credibility := "unknown"
        red_flags := []
        confidence_score := 5 } :=
  verify_claims_fallback_constant inflatedProfile emptyPyDict

/-- Witness for C9 at a concrete profile. -/
theorem assess_risks_level_witness :
    (assess_risks inflatedProfile).risk_factors.length ≤ 3 ∧
    ((assess_risks inflatedProfile).risk_level = "low" ∨
      (assess_risks inflatedProfile).risk_level = "medium") :=
  assess_risks_level_low_or_medium inflatedProfile

/-- Witness for C10 at the empty mappings. -/
theorem draft_memo_score_bounds_witness :
    5 ≤ (generate_draft_memo emptyPyDict emptyPyDict emptyPyDict).preliminary_score ∧
    (generate_draft_memo emptyPyDict emptyPyDict emptyPyDict).preliminary_score ≤ 7 ∧
    (generate_draft_memo emptyPyDict emptyPyDict emptyPyDict).recommendation ≠
      "WEAK INTEREST - High risk factors identified" :=
  draft_memo_score_bounds emptyPyDict emptyPyDict emptyPyDict
